import Mathlib

/-!
Shallow embedding of the `gin-generator/logger` repository (files `logger.go` and
`gorm.go`) and proofs about its claimed behaviour.

Emission model: a "record" is a (level, message, fields) triple submitted to the
underlying zap logger; the zap core's own level gate, encoding and sinks are the
external collaborator and are out of scope, so "emitted" below always means
"submitted to the underlying logger at that level".
-/

namespace GinLogger

/-! ### String helpers (models of Go's `strings` package functions used by the code) -/

/-- Model of `strings.HasPrefix` on char lists, used to build the other helpers. -/
def chPref : List Char → List Char → Bool
  | [], _ => true
  | _ :: _, [] => false
  | a :: as, b :: bs => a == b && chPref as bs

/-- Occurrence of `pat` as a contiguous sublist of `s` (model of `strings.Contains`). -/
def subOccurs (pat : List Char) : List Char → Bool
  | [] => pat.isEmpty
  | c :: cs => chPref pat (c :: cs) || subOccurs pat cs

/-- Model of `strings.Contains s pat`. -/
def strContains (s pat : String) : Bool :=
  subOccurs pat.data s.data

/-- Model of `strings.HasSuffix s pat`. -/
def strEndsW (s pat : String) : Bool :=
  chPref pat.data.reverse s.data.reverse

/-! ### Levels, fields and records -/

/-- Model of `zapcore.Level`. -/
inductive ZLevel
  | debug | info | warn | error | dpanic | panicLvl | fatal
deriving DecidableEq

/-- A structured-log field, as attached by `zap.String` / `zap.Int64` / `zap.Error`. -/
inductive Field
  | str (key val : String)
  | int (key : String) (val : Int)
  | err (msg : String)
deriving DecidableEq

/-- One record submitted to the underlying zap logger. -/
structure Rec where
  lvl : ZLevel
  msg : String
  fields : List Field
deriving DecidableEq

/-! ### The gorm adapter (`gorm.go`) -/

/-- Decimal digits of `n`, most significant first, with `fuel` bounding the recursion
(any `fuel > n` is exact, since `n / 10 < n` for `n ≥ 10`). -/
def decDigitsF : Nat → Nat → List Char
  | 0, _ => []
  | fuel + 1, n =>
    if n < 10 then [Char.ofNat (48 + n)]
    else decDigitsF fuel (n / 10) ++ [Char.ofNat (48 + n % 10)]

/-- Model of the decimal digits of a natural number (used for Go's zero-padded
numeric formatting). -/
def decDigits (n : Nat) : List Char := decDigitsF (n + 1) n

/-- Decimal rendering of `n` left-padded with zeros to width `w`
(model of Go's fixed-width numeric format verbs). -/
def padDec (w n : Nat) : String :=
  ⟨List.replicate (w - (decDigits n).length) '0' ++ decDigits n⟩

/-- Model of `microsecondsStr`: `fmt.Sprintf("%.3fms", float64(elapsed.Nanoseconds())/1e6)`,
rendered with integer arithmetic (the float rounding of the last digit is immaterial to
every claim, which only require this to be a fixed function of the elapsed duration). -/
def microsecondsStr (elapsed : Int) : String :=
  toString (elapsed / 1000000) ++ "." ++ padDec 3 ((elapsed.natAbs % 1000000) / 1000) ++ "ms"

/-- A gorm error as classified by `Trace`: `recNotFound` stands for any error `e` with
`errors.Is(e, gorm.ErrRecordNotFound)`, `other` for any other non-nil error. -/
inductive DBErr
  | recNotFound
  | other (msg : String)
deriving DecidableEq

/-- The zap logger handle carried by the facade and by the gorm adapter:
the configuration of its core plus the accumulated caller-skip and the
stacktrace threshold (`zap.New(core, AddCaller, AddCallerSkip 1, AddStacktrace Error)`). -/
structure ZapCore where
  lvl : ZLevel
  outPath : String
  maxSize : Nat
  maxBackup : Nat
  maxAge : Nat
  compress : Bool
  localTime : Bool
deriving DecidableEq

/-- Model of a `*zap.Logger` value: its core and the net caller-skip applied to it. -/
structure ZapLogger where
  core : ZapCore
  callerSkip : Int
  stacktraceFrom : ZLevel
deriving DecidableEq

/-- Model of `z.WithOptions(zap.AddCallerSkip n)`. -/
def addCallerSkip (z : ZapLogger) (n : Int) : ZapLogger :=
  { z with callerSkip := z.callerSkip + n }

/-- Model of the `GormLogger` struct of `gorm.go`.  `slowThreshold` is the duration in
nanoseconds (`time.Duration` is an `int64` nanosecond count). -/
structure GormLogger where
  zapLogger : ZapLogger
  slowThreshold : Int
deriving DecidableEq

/-- `filepath.Join("gorm.io", "gorm")`. -/
def gormPackage : String := "gorm.io/gorm"

/-- `filepath.Join("moul.io", "zapgorm2")`. -/
def zapGormPackage : String := "moul.io/zapgorm2"

/-- The loop body filter of `GormLogger.logger`, searching frames `i, i+1, ...` while
`fuel` lasts (`fuel` starts at 13, covering source indices `2 ≤ i < 15`).
`stack` models the runtime call stack: `stack.get? i` is the file reported by
`runtime.Caller i` from inside the `logger` method (`none` models `ok = false`). -/
def searchFrames (stack : List String) : Nat → Nat → Option Nat
  | _, 0 => none
  | i, fuel + 1 =>
    match stack.get? i with
    | none => searchFrames stack (i + 1) fuel
    | some file =>
      if strEndsW file "_test.go" then searchFrames stack (i + 1) fuel
      else if strContains file gormPackage then searchFrames stack (i + 1) fuel
      else if strContains file zapGormPackage then searchFrames stack (i + 1) fuel
      else some i

/-- Model of the `logger` method of `gorm.go`: clone the held zap logger with
`AddCallerSkip (-2)`, then return the clone with `AddCallerSkip i` for the first
qualifying frame `i ∈ [2, 14]`, or the unmodified held logger when none qualifies. -/
def GormLogger.logger (l : GormLogger) (stack : List String) : ZapLogger :=
  let clone := addCallerSkip l.zapLogger (-2)
  match searchFrames stack 2 13 with
  | some i => addCallerSkip clone (i : Int)
  | none => l.zapLogger

/-- The fixed field set built at the top of `Trace`:
`zap.String "sql"`, `zap.String "time"`, `zap.Int64 "rows"`. -/
def baseFields (elapsed : Int) (sql : String) (rows : Int) : List Field :=
  [Field.str "sql" sql, Field.str "time" (microsecondsStr elapsed), Field.int "rows" rows]

/-- Model of the `Trace` method of `gorm.go`: the list of records it submits, in order.
`elapsed` is `time.Since begin` in nanoseconds and `(sql, rows)` the result of `fc ()`.
The pair carries the (possibly error-extended) `logFields` slice forward, mirroring the
in-place `append` of the source. -/
def GormLogger.Trace (l : GormLogger) (elapsed : Int) (sql : String) (rows : Int)
    (err : Option DBErr) : List Rec :=
  let logFields := baseFields elapsed sql rows
  let pr : List Rec × List Field :=
    match err with
    | none => ([], logFields)
    | some DBErr.recNotFound =>
        ([{ lvl := ZLevel.warn, msg := "Database ErrRecordNotFound", fields := logFields }],
          logFields)
    | some (DBErr.other m) =>
        let lf := logFields ++ [Field.err m]
        ([{ lvl := ZLevel.error, msg := "Database Error", fields := lf }], lf)
  let slowRecs :=
    if l.slowThreshold ≠ 0 ∧ l.slowThreshold < elapsed then
      [{ lvl := ZLevel.warn, msg := "Database Slow Log", fields := pr.2 }]
    else []
  pr.1 ++ (slowRecs ++ [{ lvl := ZLevel.debug, msg := "Database Query", fields := pr.2 }])

/-- Whether an optional gorm error is a non-nil error other than record-not-found
(the `Trace` branch that appends the error field). -/
def isOtherErr : Option DBErr → Bool
  | some (DBErr.other _) => true
  | _ => false

/-- The frame filter of the `logger` method as a single predicate: the frame's file is
not a test file, not inside the gorm package path, and not inside the zapgorm2 package
path (there is no filter for the logging package's own path). -/
def frameQualifies (file : String) : Bool :=
  !(strEndsW file "_test.go") && !(strContains file gormPackage) &&
    !(strContains file zapGormPackage)

/-- Whether the frame at index `i` exists and passes the filter of the `logger` method. -/
def frameOkB (stack : List String) (i : Nat) : Bool :=
  match stack.get? i with
  | some file => frameQualifies file
  | none => false

/-- The caller file a record is attributed to when emitted through the logger returned by
the `logger` method: selecting frame index `i` (clone skip −2, then +i, on top of the
constructor's `AddCallerSkip 1`) is calibrated to report the frame at index `i`; on
fallback no specific frame is selected. -/
def attributedFile (stack : List String) : Option String :=
  match searchFrames stack 2 13 with
  | some i => stack.get? i
  | none => none

/-- A concrete zap logger value, as built by the facade with defaults. -/
def zap0 : ZapLogger :=
  { core := { lvl := ZLevel.info, outPath := "logs/logs-2026-10-11.log", maxSize := 100,
              maxBackup := 7, maxAge := 30, compress := false, localTime := true },
    callerSkip := 1, stacktraceFrom := ZLevel.error }

/-- A concrete gorm adapter value with the default 200ms slow threshold. -/
def gorm0 : GormLogger := { zapLogger := zap0, slowThreshold := 200000000 }

end GinLogger

namespace GinLogger

theorem searchFrames_unfold (stack : List String) (i fuel : Nat) :
    searchFrames stack i (fuel + 1) =
      match stack.get? i with
      | none => searchFrames stack (i + 1) fuel
      | some file =>
        if strEndsW file "_test.go" then searchFrames stack (i + 1) fuel
        else if strContains file gormPackage then searchFrames stack (i + 1) fuel
        else if strContains file zapGormPackage then searchFrames stack (i + 1) fuel
        else some i := rfl

theorem searchFrames_step_yes (stack : List String) (i fuel : Nat)
    (h : frameOkB stack i = true) : searchFrames stack i (fuel + 1) = some i := by
  unfold frameOkB at h
  rw [searchFrames_unfold]
  cases hg : stack.get? i with
  | none => rw [hg] at h; exact absurd h (by simp)
  | some file =>
    rw [hg] at h
    unfold frameQualifies at h
    simp only [Bool.and_eq_true, Bool.not_eq_true'] at h
    obtain ⟨⟨h1, h2⟩, h3⟩ := h
    simp [h1, h2, h3]

theorem searchFrames_step_no (stack : List String) (i fuel : Nat)
    (h : frameOkB stack i = false) :
    searchFrames stack i (fuel + 1) = searchFrames stack (i + 1) fuel := by
  unfold frameOkB at h
  rw [searchFrames_unfold]
  cases hg : stack.get? i with
  | none => rfl
  | some file =>
    rw [hg] at h
    unfold frameQualifies at h
    by_cases t1 : strEndsW file "_test.go"
    · simp [t1]
    · by_cases t2 : strContains file gormPackage
      · simp [t1, t2]
      · by_cases t3 : strContains file zapGormPackage
        · simp [t1, t2, t3]
        · exfalso; simp [t1, t2, t3] at h

theorem searchFrames_spec_some : ∀ (fuel i : Nat) (stack : List String) (j : Nat),
    searchFrames stack i fuel = some j →
    i ≤ j ∧ j < i + fuel ∧ frameOkB stack j = true ∧
      ∀ k, i ≤ k → k < j → frameOkB stack k = false := by
  intro fuel
  induction fuel with
  | zero => intro i stack j h; simp [searchFrames] at h
  | succ n ih =>
    intro i stack j h
    by_cases hok : frameOkB stack i = true
    · rw [searchFrames_step_yes stack i n hok] at h
      injection h with h; subst h
      exact ⟨Nat.le_refl _, by omega, hok, fun k hk1 hk2 => by omega⟩
    · have hok' : frameOkB stack i = false := by revert hok; cases frameOkB stack i <;> simp
      rw [searchFrames_step_no stack i n hok'] at h
      obtain ⟨h1, h2, h3, h4⟩ := ih (i + 1) stack j h
      refine ⟨by omega, by omega, h3, fun k hk1 hk2 => ?_⟩
      by_cases hk : k = i
      · subst hk; exact hok'
      · exact h4 k (by omega) hk2

theorem searchFrames_spec_none : ∀ (fuel i : Nat) (stack : List String),
    searchFrames stack i fuel = none →
    ∀ k, i ≤ k → k < i + fuel → frameOkB stack k = false := by
  intro fuel
  induction fuel with
  | zero => intro i stack _ k _ _; omega
  | succ n ih =>
    intro i stack h k hk1 hk2
    by_cases hok : frameOkB stack i = true
    · rw [searchFrames_step_yes stack i n hok] at h; exact Option.noConfusion h
    · have hok' : frameOkB stack i = false := by revert hok; cases frameOkB stack i <;> simp
      rw [searchFrames_step_no stack i n hok'] at h
      by_cases hk : k = i
      · subst hk; exact hok'
      · exact ih (i + 1) stack h k (by omega) (by omega)

/-- C1: classification of every `Trace` call.  A record-not-found error yields exactly one
warn record tagged "Database ErrRecordNotFound" carrying the unchanged base field set; any
other non-nil error yields exactly one error record tagged "Database Error" with the error
appended as an extra field; independently, a nonzero slow threshold strictly exceeded by
the elapsed time yields exactly one warn record tagged "Database Slow Log"; exactly one
debug record tagged "Database Query" is always present; and a nil error whose elapsed time
does not exceed the threshold produces exactly the single debug record. -/
theorem trace_classification (l : GormLogger) (elapsed : Int) (sql : String) (rows : Int)
    (err : Option DBErr) :
    (l.Trace elapsed sql rows err).countP
        (fun r => decide (r.lvl = ZLevel.warn ∧ r.msg = "Database ErrRecordNotFound" ∧
          r.fields = baseFields elapsed sql rows)) =
      (if err = some DBErr.recNotFound then 1 else 0) ∧
    (l.Trace elapsed sql rows err).countP
        (fun r => decide (r.lvl = ZLevel.error ∧ r.msg = "Database Error")) =
      (if isOtherErr err then 1 else 0) ∧
    (∀ m, err = some (DBErr.other m) →
      ⟨ZLevel.error, "Database Error", baseFields elapsed sql rows ++ [Field.err m]⟩ ∈
        l.Trace elapsed sql rows err) ∧
    (l.Trace elapsed sql rows err).countP
        (fun r => decide (r.lvl = ZLevel.warn ∧ r.msg = "Database Slow Log")) =
      (if l.slowThreshold ≠ 0 ∧ l.slowThreshold < elapsed then 1 else 0) ∧
    (l.Trace elapsed sql rows err).countP
        (fun r => decide (r.lvl = ZLevel.debug ∧ r.msg = "Database Query")) = 1 ∧
    (err = none → elapsed ≤ l.slowThreshold →
      l.Trace elapsed sql rows err =
        [⟨ZLevel.debug, "Database Query", baseFields elapsed sql rows⟩]) := by
  rcases err with _ | e
  · by_cases hs : l.slowThreshold ≠ 0 ∧ l.slowThreshold < elapsed
    · simp [GormLogger.Trace, isOtherErr, hs, List.countP_cons, List.countP_nil]
    · simp [GormLogger.Trace, isOtherErr, hs, List.countP_cons, List.countP_nil]
  · rcases e with _ | m
    · by_cases hs : l.slowThreshold ≠ 0 ∧ l.slowThreshold < elapsed
      · simp [GormLogger.Trace, isOtherErr, hs, List.countP_cons, List.countP_nil]
      · simp [GormLogger.Trace, isOtherErr, hs, List.countP_cons, List.countP_nil]
    · by_cases hs : l.slowThreshold ≠ 0 ∧ l.slowThreshold < elapsed
      · simp [GormLogger.Trace, isOtherErr, hs, List.countP_cons, List.countP_nil]
      · simp [GormLogger.Trace, isOtherErr, hs, List.countP_cons, List.countP_nil]

/-- C1 witness: the classification theorem applied at concrete inputs — a nil-error fast
query produces exactly the single debug record, and a generic error produces the error
record with the error appended to the field set. -/
theorem trace_classification_witness :
    GormLogger.Trace gorm0 100 "select 1" 0 none =
      [{ lvl := ZLevel.debug, msg := "Database Query", fields := baseFields 100 "select 1" 0 }] ∧
    ({ lvl := ZLevel.error, msg := "Database Error",
        fields := baseFields 100 "q" 1 ++ [Field.err "boom"] } : Rec) ∈
      GormLogger.Trace gorm0 100 "q" 1 (some (DBErr.other "boom")) := by
  constructor
  · exact (trace_classification gorm0 100 "select 1" 0 none).2.2.2.2.2 rfl (by decide)
  · exact (trace_classification gorm0 100 "q" 1 (some (DBErr.other "boom"))).2.2.1 "boom" rfl

/-- C2 counterexample: at the concrete stack `["a", "b", "app/main.go"]` the walk selects
frame 2 (which also qualifies under the claim's filters), yet the returned logger's caller
skip is unchanged (net adjustment 2 − 2 = 0), not adjusted forward by the frame index 2 as
the claim states; moreover at a stack whose frame 2 is a file of this logging package the
walk still selects frame 2, although the claim says such frames are passed over. -/
theorem caller_walk_counterexample :
    searchFrames ["a", "b", "app/main.go"] 2 13 = some 2 ∧
    frameQualifies "app/main.go" = true ∧
    (GormLogger.logger gorm0 ["a", "b", "app/main.go"]).callerSkip =
      gorm0.zapLogger.callerSkip ∧
    ¬ (GormLogger.logger gorm0 ["a", "b", "app/main.go"]).callerSkip =
      gorm0.zapLogger.callerSkip + 2 ∧
    searchFrames ["a", "b", "github.com/gin-generator/logger/logger.go", "app/main.go"]
      2 13 = some 2 := by
  decide

/-- C2 amended: the walk over frames 2..14 selects the first existing frame that is not a
test file, not in the gorm package path and not in the zapgorm2 package path (no filter
for the logging package itself), and the underlying logger is used with its caller skip
adjusted by the selected index minus 2; with no qualifying frame the unmodified underlying
logger is used. -/
theorem caller_walk_amended (g : GormLogger) (stack : List String) :
    (∀ i, searchFrames stack 2 13 = some i →
       GormLogger.logger g stack = addCallerSkip g.zapLogger ((i : Int) - 2) ∧
       2 ≤ i ∧ i < 15 ∧ frameOkB stack i = true ∧
       (∀ k, 2 ≤ k → k < i → frameOkB stack k = false)) ∧
    (searchFrames stack 2 13 = none → GormLogger.logger g stack = g.zapLogger) := by
  constructor
  · intro i h
    obtain ⟨h1, h2, h3, h4⟩ := searchFrames_spec_some 13 2 stack i h
    have harith : g.zapLogger.callerSkip + -2 + (i : Int) =
        g.zapLogger.callerSkip + ((i : Int) - 2) := by ring
    refine ⟨?_, h1, by omega, h3, h4⟩
    simp only [GormLogger.logger, h, addCallerSkip, harith]
  · intro h
    simp only [GormLogger.logger, h]

/-- C2 amended witness: at the concrete stack `["a", "b", "app/main.go"]`, frame 2 is
selected and the result is the underlying logger with skip adjusted by 2 − 2. -/
theorem caller_walk_amended_witness :
    GormLogger.logger gorm0 ["a", "b", "app/main.go"] =
      addCallerSkip gorm0.zapLogger ((2 : Int) - 2) ∧
    frameOkB ["a", "b", "app/main.go"] 2 = true := by
  have h := (caller_walk_amended gorm0 ["a", "b", "app/main.go"]).1 2 (by decide)
  exact ⟨h.1, h.2.2.2.1⟩

/-- C3 counterexample: invoking `Trace` through two test-code wrapping layers (frames 2
and 3) with the outermost test call site at frame 4 attributes the record to the first
non-test frame above it (the test harness at frame 5), not to the outermost test-code
frame: test files are explicitly filtered from selection. -/
theorem caller_attrib_counterexample :
    attributedFile ["proj/logger/gorm.go", "proj/logger/gorm.go", "proj/logger/gorm_test.go",
        "proj/logger/gorm_test.go", "proj/logger/gorm_test.go", "go/src/testing/testing.go"] =
      some "go/src/testing/testing.go" ∧
    ¬ attributedFile ["proj/logger/gorm.go", "proj/logger/gorm.go", "proj/logger/gorm_test.go",
        "proj/logger/gorm_test.go", "proj/logger/gorm_test.go", "go/src/testing/testing.go"] =
      some "proj/logger/gorm_test.go" := by
  decide

/-- C3 amended: with two test-file wrapping layers at frames 2 and 3 and the outermost
test call site at frame 4, the record is attributed neither to a wrapping layer nor to the
test call site, but to the first qualifying frame above them (frame 5). -/
theorem caller_attrib_amended (f0 f1 w2 w1 site nx : String) (rest : List String)
    (hw2 : strEndsW w2 "_test.go" = true) (hw1 : strEndsW w1 "_test.go" = true)
    (hsite : strEndsW site "_test.go" = true) (hnx : frameQualifies nx = true) :
    attributedFile (f0 :: f1 :: w2 :: w1 :: site :: nx :: rest) = some nx ∧
    searchFrames (f0 :: f1 :: w2 :: w1 :: site :: nx :: rest) 2 13 = some 5 := by
  have hk2 : frameOkB (f0 :: f1 :: w2 :: w1 :: site :: nx :: rest) 2 = false := by
    show frameQualifies w2 = false; simp [frameQualifies, hw2]
  have hk3 : frameOkB (f0 :: f1 :: w2 :: w1 :: site :: nx :: rest) 3 = false := by
    show frameQualifies w1 = false; simp [frameQualifies, hw1]
  have hk4 : frameOkB (f0 :: f1 :: w2 :: w1 :: site :: nx :: rest) 4 = false := by
    show frameQualifies site = false; simp [frameQualifies, hsite]
  have hk5 : frameOkB (f0 :: f1 :: w2 :: w1 :: site :: nx :: rest) 5 = true := by
    show frameQualifies nx = true; exact hnx
  have t1 : searchFrames (f0 :: f1 :: w2 :: w1 :: site :: nx :: rest) 2 13 =
      searchFrames (f0 :: f1 :: w2 :: w1 :: site :: nx :: rest) 3 12 :=
    searchFrames_step_no _ 2 12 hk2
  have t2 : searchFrames (f0 :: f1 :: w2 :: w1 :: site :: nx :: rest) 3 12 =
      searchFrames (f0 :: f1 :: w2 :: w1 :: site :: nx :: rest) 4 11 :=
    searchFrames_step_no _ 3 11 hk3
  have t3 : searchFrames (f0 :: f1 :: w2 :: w1 :: site :: nx :: rest) 4 11 =
      searchFrames (f0 :: f1 :: w2 :: w1 :: site :: nx :: rest) 5 10 :=
    searchFrames_step_no _ 4 10 hk4
  have t4 : searchFrames (f0 :: f1 :: w2 :: w1 :: site :: nx :: rest) 5 10 = some 5 :=
    searchFrames_step_yes _ 5 9 hk5
  have hs := t1.trans (t2.trans (t3.trans t4))
  constructor
  · show (match searchFrames (f0 :: f1 :: w2 :: w1 :: site :: nx :: rest) 2 13 with
      | some i => (f0 :: f1 :: w2 :: w1 :: site :: nx :: rest).get? i
      | none => none) = some nx
    rw [hs]
    rfl
  · exact hs

/-- C3 amended witness: the amended attribution theorem applied at a concrete stack. -/
theorem caller_attrib_amended_witness :
    attributedFile ["gorm.go", "gorm.go", "a_test.go", "b_test.go", "c_test.go",
      "app/main.go"] = some "app/main.go" :=
  (caller_attrib_amended "gorm.go" "gorm.go" "a_test.go" "b_test.go" "c_test.go"
    "app/main.go" [] (by decide) (by decide) (by decide) (by decide)).1

end GinLogger

namespace GinLogger

/-! ### The logger facade (`logger.go`) -/

/-- The `INFO` level-name constant of `logger.go`. -/
def INFO : String := "info"

/-- The `WARN` level-name constant of `logger.go`. -/
def WARN : String := "warn"

/-- The `ERROR` level-name constant of `logger.go`. -/
def ERROR : String := "error"

/-- The `DEBUG` level-name constant of `logger.go`. -/
def DEBUG : String := "debug"

/-- A calendar date, standing for the `time.Now()` value read by `getWriter`. -/
structure Date where
  year : Nat
  month : Nat
  day : Nat
deriving DecidableEq

/-- Model of the `Logger` struct of `logger.go`.  `onceUsed` models the `sync.Once`
cell; `buildCount` instruments the number of executions of the build closure passed to
`once.Do` (not a field of the source struct — it exists to state the build-at-most-once
property); `log` is the `Log *zap.Logger` field, `none` for nil. -/
structure Logger where
  fileName : String
  maxSize : Nat
  maxBackup : Nat
  maxAge : Nat
  compress : Bool
  level : String
  localTime : Bool
  onceUsed : Bool
  log : Option ZapLogger
  buildCount : Nat
deriving DecidableEq

/-- Model of `newDefaultLogger` (note `localTime: true` in the source). -/
def newDefaultLogger : Logger :=
  { fileName := "logs/logs.log", maxSize := 100, maxBackup := 7, maxAge := 30,
    compress := false, level := INFO, localTime := true,
    onceUsed := false, log := none, buildCount := 0 }

/-- The functional options of `logger.go` (`WithFileName` … `WithLevel`). -/
inductive Opt
  | withFileName (s : String)
  | withMaxSize (n : Nat)
  | withMaxBackup (n : Nat)
  | withMaxAge (n : Nat)
  | withCompress (b : Bool)
  | withLevel (s : String)
deriving DecidableEq

/-- Model of the `apply` method of each option. -/
def Opt.apply : Opt → Logger → Logger
  | .withFileName s, l => { l with fileName := s }
  | .withMaxSize n, l => { l with maxSize := n }
  | .withMaxBackup n, l => { l with maxBackup := n }
  | .withMaxAge n, l => { l with maxAge := n }
  | .withCompress b, l => { l with compress := b }
  | .withLevel s, l => { l with level := s }

/-- The option loop of `NewLogger`. -/
def applyOpts (l : Logger) (opts : List Opt) : Logger :=
  opts.foldl (fun acc o => o.apply acc) l

/-- Replacement of every non-overlapping occurrence of `pat` in `s` by `r`, scanning left
to right, with `fuel` bounding the scan (model of `strings.ReplaceAll`; only ever called
with the nonempty pattern "logs.log", so Go's empty-pattern special case is not modelled).
On a match, `c` and the following `pat.length - 1` characters are consumed. -/
def replListF (pat r : List Char) : Nat → List Char → List Char
  | _, [] => []
  | 0, s => s
  | fuel + 1, c :: cs =>
    if chPref pat (c :: cs) then r ++ replListF pat r fuel (cs.drop (pat.length - 1))
    else c :: replListF pat r fuel cs

/-- Model of `strings.ReplaceAll s pat r`. -/
def replaceAll (s pat r : String) : String :=
  ⟨replListF pat.data r.data s.data.length s.data⟩

/-- Model of the Go time layout `"logs-2006-01-02.log"` applied to date `d`:
zero-padded 4-digit year, 2-digit month and 2-digit day. -/
def formatLogName (d : Date) : String :=
  "logs-" ++ padDec 4 d.year ++ "-" ++ padDec 2 d.month ++ "-" ++ padDec 2 d.day ++ ".log"

/-- Model of `getWriter`: the resolved filename handed to the lumberjack rotating sink
(the multi-write fan-out with stdout and the rotation mechanics themselves are the
external collaborator). -/
def getWriterFilename (l : Logger) (d : Date) : String :=
  replaceAll l.fileName "logs.log" (formatLogName d)

/-- Model of `zapcore.Level.UnmarshalText` (external collaborator, from zap's
`zapcore/level.go`): the accepted level strings and their parses. -/
def parseLevel (s : String) : Option ZLevel :=
  if s = "debug" ∨ s = "DEBUG" then some ZLevel.debug
  else if s = "info" ∨ s = "INFO" ∨ s = "" then some ZLevel.info
  else if s = "warn" ∨ s = "WARN" then some ZLevel.warn
  else if s = "error" ∨ s = "ERROR" then some ZLevel.error
  else if s = "dpanic" ∨ s = "DPANIC" then some ZLevel.dpanic
  else if s = "panic" ∨ s = "PANIC" then some ZLevel.panicLvl
  else if s = "fatal" ∨ s = "FATAL" then some ZLevel.fatal
  else none

/-- The diagnostic printed by `custom` on an invalid level. -/
def initErrMsg : String :=
  "Logger init error: invalid log level. Please check the level setting."

/-- The build closure passed to `once.Do` inside `custom`:
`zap.New(zapcore.NewCore(encoder, getWriter, level), AddCaller, AddCallerSkip 1,
AddStacktrace ErrorLevel)`; the static encoder configuration belongs to the
collaborator. -/
def buildZap (l : Logger) (lvl : ZLevel) (d : Date) : ZapLogger :=
  { core := { lvl := lvl, outPath := getWriterFilename l d, maxSize := l.maxSize,
              maxBackup := l.maxBackup, maxAge := l.maxAge, compress := l.compress,
              localTime := l.localTime },
    callerSkip := 1, stacktraceFrom := ZLevel.error }

/-- Model of `custom`: parse the level (print a diagnostic and return early on failure),
then build the zap logger under the `sync.Once` gate.  `d` is the `time.Now()` date read
through `getWriter` during the build.  Returns the updated logger together with the
diagnostics printed. -/
def customOut (l : Logger) (d : Date) : Logger × List String :=
  match parseLevel l.level with
  | none => (l, [initErrMsg])
  | some lvl =>
    (if l.onceUsed then l
     else { l with onceUsed := true, log := some (buildZap l lvl d),
                   buildCount := l.buildCount + 1 }, [])

/-- The state transition of one `custom` invocation. -/
def customStep (l : Logger) (d : Date) : Logger :=
  (customOut l d).1

/-- Iterated `custom` invocations, one per date in `ds`. -/
def customIter (l : Logger) (ds : List Date) : Logger :=
  ds.foldl customStep l

/-- Model of `NewLogger`: defaults, then the options in order, then `custom`. -/
def NewLoggerM (opts : List Opt) (d : Date) : Logger × List String :=
  customOut (applyOpts newDefaultLogger opts) d

/-- The configuration field written by an option. -/
inductive CField
  | fname | msize | mbackup | mage | comp | lvl
deriving DecidableEq

/-- A configuration field value. -/
inductive FVal
  | s (v : String)
  | n (v : Nat)
  | b (v : Bool)
deriving DecidableEq

/-- The field an option writes. -/
def Opt.field : Opt → CField
  | .withFileName _ => .fname
  | .withMaxSize _ => .msize
  | .withMaxBackup _ => .mbackup
  | .withMaxAge _ => .mage
  | .withCompress _ => .comp
  | .withLevel _ => .lvl

/-- The value an option writes. -/
def Opt.value : Opt → FVal
  | .withFileName s => .s s
  | .withMaxSize n => .n n
  | .withMaxBackup n => .n n
  | .withMaxAge n => .n n
  | .withCompress b => .b b
  | .withLevel s => .s s

/-- Reading a configuration field of the logger. -/
def Logger.read (l : Logger) : CField → FVal
  | .fname => .s l.fileName
  | .msize => .n l.maxSize
  | .mbackup => .n l.maxBackup
  | .mage => .n l.maxAge
  | .comp => .b l.compress
  | .lvl => .s l.level

/-- An arbitrary value handed to `json.Marshal`, abstracted by its marshaling outcome
(a model of the `interface{}` argument together with the collaborator `json.Marshal`). -/
inductive JValue
  | good (json : String)
  | bad (errMsg : String)
deriving DecidableEq

/-- Model of `json.Marshal` on a `JValue`: the bytes (as a string) or the error. -/
def jsonMarshal : JValue → Except String String
  | .good s => .ok s
  | .bad e => .error e

/-- Model of `jsonString`: the returned string together with the records emitted.
`json.Marshal` returns nil bytes alongside any error, so `string(b)` is empty on
failure, and the failure itself is logged at error level and not propagated. -/
def jsonString (v : JValue) : String × List Rec :=
  match jsonMarshal v with
  | .error e => ("", [{ lvl := ZLevel.error, msg := "Logger",
                        fields := [Field.str "JSON marshal error" e] }])
  | .ok s => (s, [])

/-- Model of `Dump`: render the value via `jsonString`, then emit one warn record whose
single field key is the first optional message, or "data" when omitted. -/
def Dump (v : JValue) (message : List String) : List Rec :=
  let p := jsonString v
  match message with
  | m :: _ => p.2 ++ [{ lvl := ZLevel.warn, msg := "Dump", fields := [Field.str m p.1] }]
  | [] => p.2 ++ [{ lvl := ZLevel.warn, msg := "Dump", fields := [Field.str "data" p.1] }]

/-- The initialization invariant of the once-gate: the build closure has run at most once,
has not run while the gate is unused, and only the build publishes the instance. -/
def InitInv (l : Logger) : Prop :=
  l.buildCount ≤ 1 ∧ (l.onceUsed = false → l.buildCount = 0) ∧
    (l.log.isSome = true → l.onceUsed = true)

end GinLogger

namespace GinLogger

theorem Opt.apply_state (o : Opt) (l : Logger) :
    (o.apply l).onceUsed = l.onceUsed ∧ (o.apply l).log = l.log ∧
      (o.apply l).buildCount = l.buildCount := by
  cases o <;> exact ⟨rfl, rfl, rfl⟩

theorem applyOpts_state : ∀ (opts : List Opt) (l : Logger),
    (applyOpts l opts).onceUsed = l.onceUsed ∧ (applyOpts l opts).log = l.log ∧
      (applyOpts l opts).buildCount = l.buildCount := by
  intro opts
  induction opts with
  | nil => intro l; exact ⟨rfl, rfl, rfl⟩
  | cons o os ih =>
    intro l
    obtain ⟨a, b, c⟩ := ih (Opt.apply o l)
    obtain ⟨a2, b2, c2⟩ := Opt.apply_state o l
    exact ⟨a.trans a2, b.trans b2, c.trans c2⟩

theorem customStep_inv (l : Logger) (d : Date) (h : InitInv l) : InitInv (customStep l d) := by
  unfold InitInv at h ⊢
  unfold customStep customOut
  cases hp : parseLevel l.level with
  | none => simpa using h
  | some lvl =>
    by_cases ho : l.onceUsed = true
    · simpa [ho] using h
    · have ho2 : l.onceUsed = false := by revert ho; cases l.onceUsed <;> simp
      have hc := h.2.1 ho2
      simp [ho2, hc]

theorem customIter_inv : ∀ (ds : List Date) (l : Logger),
    InitInv l → InitInv (customIter l ds) := by
  intro ds
  induction ds with
  | nil => intro l h; exact h
  | cons d ds ih => intro l h; exact ih (customStep l d) (customStep_inv l d h)

theorem applyOpts_default_inv (opts : List Opt) :
    InitInv (applyOpts newDefaultLogger opts) := by
  obtain ⟨a, b, c⟩ := applyOpts_state opts newDefaultLogger
  unfold InitInv
  rw [a, b, c]
  exact ⟨by decide, fun _ => rfl, by simp [newDefaultLogger]⟩

/-- C5: an unparsable level string makes initialization print the diagnostic and return
before the build step: the built logger keeps a nil underlying instance (`log = none`),
the build closure never runs, and the routine returns normally (no panic is modelled —
the transition is a total function). -/
theorem invalid_level_aborts (opts : List Opt) (d : Date)
    (h : parseLevel (applyOpts newDefaultLogger opts).level = none) :
    (NewLoggerM opts d).1.log = none ∧ (NewLoggerM opts d).1.buildCount = 0 ∧
      (NewLoggerM opts d).2 = [initErrMsg] := by
  obtain ⟨ha, hb, hc⟩ := applyOpts_state opts newDefaultLogger
  unfold NewLoggerM customOut
  rw [h]
  exact ⟨hb.trans rfl, hc.trans rfl, rfl⟩

/-- C5 witness: the abort theorem applied at the concrete invalid level "verbose". -/
theorem invalid_level_aborts_witness :
    (NewLoggerM [Opt.withLevel "verbose"] ⟨2026, 10, 11⟩).1.log = none ∧
    (NewLoggerM [Opt.withLevel "verbose"] ⟨2026, 10, 11⟩).1.buildCount = 0 ∧
    (NewLoggerM [Opt.withLevel "verbose"] ⟨2026, 10, 11⟩).2 = [initErrMsg] :=
  invalid_level_aborts [Opt.withLevel "verbose"] ⟨2026, 10, 11⟩ (by decide)

/-- C6: the underlying instance is built at most once per `Logger` value and the
unbuilt-to-built transition is monotonic: a `custom` invocation on a logger whose
once-gate is used is the identity; across any sequence of invocations starting from a
configured logger the build closure runs at most once; and once the instance is built,
any further invocation leaves it unchanged. -/
theorem build_once :
    (∀ (l : Logger) (d : Date), l.onceUsed = true → customStep l d = l) ∧
    (∀ (opts : List Opt) (ds : List Date),
      (customIter (applyOpts newDefaultLogger opts) ds).buildCount ≤ 1) ∧
    (∀ (opts : List Opt) (ds : List Date) (d : Date) (b : ZapLogger),
      (customIter (applyOpts newDefaultLogger opts) ds).log = some b →
      (customStep (customIter (applyOpts newDefaultLogger opts) ds) d).log = some b) := by
  have hid : ∀ (l : Logger) (d : Date), l.onceUsed = true → customStep l d = l := by
    intro l d h
    unfold customStep customOut
    cases hp : parseLevel l.level with
    | none => rfl
    | some lvl => simp [h]
  refine ⟨hid, ?_, ?_⟩
  · intro opts ds
    exact (customIter_inv ds _ (applyOpts_default_inv opts)).1
  · intro opts ds d b hb
    have hinv := customIter_inv ds _ (applyOpts_default_inv opts)
    have hused : (customIter (applyOpts newDefaultLogger opts) ds).onceUsed = true :=
      hinv.2.2 (by simp [hb])
    rw [hid _ d hused]
    exact hb

/-- C6 witness: the identity of `custom` on a used gate at a concrete logger, the
at-most-once bound over two concrete invocations, and stability of a concretely built
instance. -/
theorem build_once_witness :
    customStep { newDefaultLogger with onceUsed := true } ⟨2026, 10, 11⟩ =
      { newDefaultLogger with onceUsed := true } ∧
    (customIter (applyOpts newDefaultLogger [])
      [⟨2026, 10, 11⟩, ⟨2026, 10, 12⟩]).buildCount ≤ 1 ∧
    (customStep (customIter (applyOpts newDefaultLogger []) [⟨2026, 10, 11⟩])
        ⟨2026, 10, 12⟩).log =
      some (buildZap newDefaultLogger ZLevel.info ⟨2026, 10, 11⟩) :=
  ⟨build_once.1 _ ⟨2026, 10, 11⟩ rfl,
   build_once.2.1 [] [⟨2026, 10, 11⟩, ⟨2026, 10, 12⟩],
   build_once.2.2 [] [⟨2026, 10, 11⟩] ⟨2026, 10, 12⟩
     (buildZap newDefaultLogger ZLevel.info ⟨2026, 10, 11⟩) rfl⟩

/-- C4 counterexample: constructing with the empty option list yields `localTime = true`
(local timestamps for the rotation sink), not the claimed local-time-flag-off (UTC)
default. -/
theorem logger_defaults_counterexample :
    ¬ ((NewLoggerM [] ⟨2026, 10, 11⟩).1.localTime = false) := by decide

theorem Opt.read_apply_self (o : Opt) (l : Logger) : (o.apply l).read o.field = o.value := by
  cases o <;> rfl

theorem Opt.read_apply_ne (o : Opt) (f : CField) (l : Logger) (h : o.field ≠ f) :
    (o.apply l).read f = l.read f := by
  cases o <;> cases f <;> first | rfl | exact absurd rfl h

theorem applyOpts_read_ne (os : List Opt) (f : CField) :
    ∀ l : Logger, (∀ o ∈ os, o.field ≠ f) → (applyOpts l os).read f = l.read f := by
  induction os with
  | nil => intro l _; rfl
  | cons o os ih =>
    intro l h
    have h1 : o.field ≠ f := h o (List.mem_cons_self o os)
    have h2 : ∀ o2 ∈ os, o2.field ≠ f := fun o2 hm => h o2 (List.mem_cons_of_mem o hm)
    exact (ih (Opt.apply o l) h2).trans (Opt.read_apply_ne o f l h1)

/-- C4 amended: the empty option list yields exactly the source defaults — path
`logs/logs.log`, 100 MB, 7 backups, 30 days retention, compression off, local-time flag
ON (not UTC), level `info` — and options apply in order, a later option overriding every
earlier one writing the same field. -/
theorem logger_defaults_amended :
    (∀ d : Date,
      (NewLoggerM [] d).1.fileName = "logs/logs.log" ∧
      (NewLoggerM [] d).1.maxSize = 100 ∧ (NewLoggerM [] d).1.maxBackup = 7 ∧
      (NewLoggerM [] d).1.maxAge = 30 ∧ (NewLoggerM [] d).1.compress = false ∧
      (NewLoggerM [] d).1.localTime = true ∧ (NewLoggerM [] d).1.level = INFO) ∧
    (∀ (l : Logger) (os1 : List Opt) (o : Opt) (os2 : List Opt),
      (∀ o2 ∈ os2, o2.field ≠ o.field) →
      (applyOpts l (os1 ++ o :: os2)).read o.field = o.value) := by
  constructor
  · intro d
    exact ⟨rfl, rfl, rfl, rfl, rfl, rfl, rfl⟩
  · intro l os1 o os2 h
    have e : applyOpts l (os1 ++ o :: os2) = applyOpts (Opt.apply o (applyOpts l os1)) os2 := by
      unfold applyOpts
      rw [List.foldl_append]
      rfl
    rw [e, applyOpts_read_ne os2 o.field _ h, Opt.read_apply_self]

/-- C4 amended witness: the defaults at a concrete date, and a later `WithMaxSize`
overriding an earlier one in a concrete option list. -/
theorem logger_defaults_amended_witness :
    (NewLoggerM [] ⟨2026, 10, 11⟩).1.maxSize = 100 ∧
    (applyOpts newDefaultLogger
        [Opt.withMaxSize 3, Opt.withMaxSize 5, Opt.withLevel "debug"]).read
      CField.msize = FVal.n 5 :=
  ⟨(logger_defaults_amended.1 ⟨2026, 10, 11⟩).2.1,
   logger_defaults_amended.2 newDefaultLogger [Opt.withMaxSize 3] (Opt.withMaxSize 5)
     [Opt.withLevel "debug"] (by decide)⟩

/-- C7: `jsonString` recovers marshal failures locally — it emits exactly one error-level
record reporting the failure and returns the empty string as the rendered value; on
success it returns the marshaled text with no record.  Being a total function, it never
propagates the failure to its caller. -/
theorem jsonString_spec (v : JValue) :
    (∀ e, jsonMarshal v = Except.error e →
      jsonString v = ("", [{ lvl := ZLevel.error, msg := "Logger",
                             fields := [Field.str "JSON marshal error" e] }])) ∧
    (∀ s, jsonMarshal v = Except.ok s → jsonString v = (s, [])) := by
  cases v with
  | good s =>
    constructor
    · intro e he; exact absurd he (by simp [jsonMarshal])
    · intro s2 hs
      have : s = s2 := by simpa [jsonMarshal] using hs
      subst this; rfl
  | bad e =>
    constructor
    · intro e2 he
      have : e = e2 := by simpa [jsonMarshal] using he
      subst this; rfl
    · intro s hs; exact absurd hs (by simp [jsonMarshal])

/-- C7 witness: the specification applied at a concretely failing and a concretely
succeeding value. -/
theorem jsonString_spec_witness :
    jsonString (JValue.bad "boom") =
      ("", [Rec.mk ZLevel.error "Logger" [Field.str "JSON marshal error" "boom"]]) ∧
    jsonString (JValue.good "\x7b\x7d") = ("\x7b\x7d", []) :=
  ⟨(jsonString_spec (JValue.bad "boom")).1 "boom" rfl,
   (jsonString_spec (JValue.good "\x7b\x7d")).2 "\x7b\x7d" rfl⟩

/-- C8 counterexample: a `Dump` call on a value whose JSON marshaling fails emits two
records (the marshal-failure error record from `jsonString`, then the warn record), not
exactly one. -/
theorem dump_counterexample :
    (Dump (JValue.bad "x") []).length = 2 ∧
    ¬ ((Dump (JValue.bad "x") []).length = 1) := by decide

/-- C8 amended: every `Dump` call emits exactly one warn-level record (never one at debug
or info), preceded by exactly one additional error-level record when the value's JSON
marshaling fails; the warn record's single field uses the key "data" when no label is
given, and the first label otherwise. -/
theorem dump_amended (v : JValue) (message : List String) :
    (Dump v message).countP (fun r => decide (r.lvl = ZLevel.warn)) = 1 ∧
    (Dump v message).countP
      (fun r => decide (r.lvl = ZLevel.debug ∨ r.lvl = ZLevel.info)) = 0 ∧
    (∀ s, jsonMarshal v = Except.ok s →
      Dump v message =
        [Rec.mk ZLevel.warn "Dump" [Field.str (message.headD "data") s]]) ∧
    (∀ e, jsonMarshal v = Except.error e →
      Dump v message =
        [Rec.mk ZLevel.error "Logger" [Field.str "JSON marshal error" e],
         Rec.mk ZLevel.warn "Dump" [Field.str (message.headD "data") ""]]) := by
  cases v <;> cases message <;>
    simp [Dump, jsonString, jsonMarshal, List.countP_cons, List.countP_nil]

/-- C8 amended witness: a labelled dump of a marshalable value yields the single warn
record keyed by the label, and a dump of an unmarshalable value still yields exactly one
warn record. -/
theorem dump_amended_witness :
    Dump (JValue.good "v") ["User"] =
      [Rec.mk ZLevel.warn "Dump" [Field.str "User" "v"]] ∧
    (Dump (JValue.bad "x") []).countP (fun r => decide (r.lvl = ZLevel.warn)) = 1 :=
  ⟨(dump_amended (JValue.good "v") ["User"]).2.2.1 "v" rfl,
   (dump_amended (JValue.bad "x") []).1⟩

theorem replaceAll_logs (r : String) :
    replaceAll "logs/logs.log" "logs.log" r = "logs/" ++ r := by
  have h : replListF ("logs.log".data) r.data (("logs/logs.log".data).length)
      ("logs/logs.log".data) = "logs/".data ++ (r.data ++ []) := rfl
  show (⟨replListF ("logs.log".data) r.data (("logs/logs.log".data).length)
      ("logs/logs.log".data)⟩ : String) = "logs/" ++ r
  rw [h, List.append_nil]
  rfl

theorem decDigitsF_len : ∀ (fuel n k : Nat), 1 ≤ k → n < 10 ^ k →
    (decDigitsF fuel n).length ≤ k := by
  intro fuel
  induction fuel with
  | zero => intro n k _ _; simp [decDigitsF]
  | succ f ih =>
    intro n k hk hn
    by_cases h10 : n < 10
    · have e : decDigitsF (f + 1) n = [Char.ofNat (48 + n)] := by simp [decDigitsF, h10]
      rw [e]
      simpa using hk
    · have e : decDigitsF (f + 1) n =
          decDigitsF f (n / 10) ++ [Char.ofNat (48 + n % 10)] := by
        simp [decDigitsF, h10]
      rw [e, List.length_append]
      rcases k with _ | k
      · omega
      rcases k with _ | k
      · rw [pow_one] at hn
        omega
      · rw [pow_succ] at hn
        have hdiv : n / 10 < 10 ^ (k + 1) := Nat.div_lt_of_lt_mul (by omega)
        have hlen := ih (n / 10) (k + 1) (by omega) hdiv
        simp only [List.length_singleton]
        omega

theorem decDigits_len_le (n k : Nat) (hk : 1 ≤ k) (hn : n < 10 ^ k) :
    (decDigits n).length ≤ k :=
  decDigitsF_len (n + 1) n k hk hn

theorem padDec_length (w n : Nat) (h : (decDigits n).length ≤ w) :
    (padDec w n).length = w := by
  show (List.replicate (w - (decDigits n).length) '0' ++ decDigits n).length = w
  rw [List.length_append, List.length_replicate]
  omega

/-- C9: for the base file path `logs/logs.log` the resolved rotating-file path equals
`logs/logs-YYYY-MM-DD.log`, the date-stamped name substituted for the `logs.log`
component, where the year is rendered zero-padded to 4 digits and month and day to 2. -/
theorem writer_path_datestamp (l : Logger) (d : Date) (hf : l.fileName = "logs/logs.log") :
    getWriterFilename l d =
      "logs/logs-" ++ padDec 4 d.year ++ "-" ++ padDec 2 d.month ++ "-" ++
        padDec 2 d.day ++ ".log" ∧
    (d.year < 10000 → (padDec 4 d.year).length = 4) ∧
    (d.month < 100 → (padDec 2 d.month).length = 2) ∧
    (d.day < 100 → (padDec 2 d.day).length = 2) := by
  refine ⟨?_, ?_, ?_, ?_⟩
  · unfold getWriterFilename
    rw [hf, replaceAll_logs]
    rfl
  · intro hy
    refine padDec_length 4 d.year (decDigits_len_le d.year 4 (by omega) ?_)
    rw [show (10 : Nat) ^ 4 = 10000 from by norm_num]
    exact hy
  · intro hm
    refine padDec_length 2 d.month (decDigits_len_le d.month 2 (by omega) ?_)
    rw [show (10 : Nat) ^ 2 = 100 from by norm_num]
    exact hm
  · intro hd
    refine padDec_length 2 d.day (decDigits_len_le d.day 2 (by omega) ?_)
    rw [show (10 : Nat) ^ 2 = 100 from by norm_num]
    exact hd

/-- C9 witness: the date-stamp theorem applied at the default path and the concrete date
2026-10-11, together with the fully evaluated concrete resolved path. -/
theorem writer_path_datestamp_witness :
    getWriterFilename newDefaultLogger ⟨2026, 10, 11⟩ =
      "logs/logs-" ++ padDec 4 2026 ++ "-" ++ padDec 2 10 ++ "-" ++ padDec 2 11 ++
        ".log" ∧
    (padDec 4 2026).length = 4 ∧
    getWriterFilename newDefaultLogger ⟨2026, 10, 11⟩ = "logs/logs-2026-10-11.log" := by
  have h := writer_path_datestamp newDefaultLogger ⟨2026, 10, 11⟩ rfl
  exact ⟨h.1, h.2.1 (by decide), by decide⟩

theorem replListF_no_occ (pat r : List Char) :
    ∀ (s : List Char) (fuel : Nat), s.length ≤ fuel → subOccurs pat s = false →
      replListF pat r fuel s = s := by
  intro s
  induction s with
  | nil => intro fuel _ _; cases fuel <;> rfl
  | cons c cs ih =>
    intro fuel hf hocc
    rcases fuel with _ | f
    · simp at hf
    · simp only [subOccurs, Bool.or_eq_false_iff] at hocc
      obtain ⟨h1, h2⟩ := hocc
      rw [show replListF pat r (f + 1) (c :: cs) =
            if chPref pat (c :: cs) then r ++ replListF pat r f (cs.drop (pat.length - 1))
            else c :: replListF pat r f cs from rfl,
          if_neg (by simp [h1])]
      rw [ih f (by simp at hf; omega) h2]

/-- C10: a configured file path that does not contain the literal substring `logs.log`
(for example `logs/sql.log`) resolves to itself unchanged: no date stamp is substituted,
so every day's output lands in the same file. -/
theorem writer_path_unchanged (l : Logger) (d : Date)
    (h : strContains l.fileName "logs.log" = false) :
    getWriterFilename l d = l.fileName := by
  unfold getWriterFilename replaceAll
  rw [replListF_no_occ ("logs.log".data) ((formatLogName d).data) l.fileName.data
      l.fileName.data.length (Nat.le_refl _) h]

/-- C10 witness: the unchanged-path theorem applied at the concrete path `logs/sql.log`
used by the repository's gorm test. -/
theorem writer_path_unchanged_witness :
    getWriterFilename { newDefaultLogger with fileName := "logs/sql.log" } ⟨2026, 10, 11⟩ =
      "logs/sql.log" :=
  writer_path_unchanged { newDefaultLogger with fileName := "logs/sql.log" }
    ⟨2026, 10, 11⟩ (by decide)

end GinLogger
